import Mathlib

/-!
Verification development for the Shader-Pilot real-time simulation core.

The definitions below are a shallow embedding, over exact rational
arithmetic, of the per-frame update loop of the application store
(`src/unnamed/part_004`): camera physics with collision veto, the
collision classifier, the telemetry heading computation, the modulation
router, the arpeggiator index stepper, the audio event scheduler with its
lookahead window, and the session-state merge performed on load.

Modelling conventions:
* JavaScript numbers are modelled as rationals (`ℚ`); the numeric literals
  of the source (`0.1`, `0.002`, ...) become the corresponding exact
  rationals.  Where the exact IEEE-754 value matters (`Math.PI`) the exact
  rational value of the double is used.
* `Math.sin` / `Math.cos` are abstracted as a pair of function parameters
  (structure `Trig`), and the fractal distance estimator
  `getPlanet1Distance` as a function parameter `dist : Vec3 → ℚ`; the
  claims under study quantify over the value of the distance function at
  the proposed position, so no property of the concrete SDF is needed.
* JavaScript `x ?? d` on possibly-absent fields is `Option.getD`;
  `obj?.f` is `Option.bind`; `x || d` applied to a possibly-absent array
  is also `Option.getD` (arrays, even empty ones, are truthy).
* The JavaScript remainder operator `%` truncates toward zero and keeps
  the dividend's sign; it is modelled by `jsRem` (on `ℚ`) and `Int.tmod`
  (on `ℤ`).
-/

namespace ShaderPilot

/-- Camera/physics 3-vector with exact rational components. -/
structure Vec3 where
  x : ℚ
  y : ℚ
  z : ℚ
  deriving DecidableEq, Repr

/-- Collision classification states, `'none' | 'approaching' | 'colliding'`. -/
inductive CollState where
  | none
  | approaching
  | colliding
  deriving DecidableEq, Repr

/-- Collision classifier of the game loop (part_004 lines 1208-1227):
`dist < red` is colliding with proximity 1; `red ≤ dist < yellow` is
approaching with proximity `1 - (dist-red)/(yellow-red)` clamped to
[0,1] (the source applies `Math.max(0, Math.min(1, ·))`); otherwise
none with proximity 0. -/
def classifyCollision (red yellow d : ℚ) : CollState × ℚ :=
  if d < red then
    (CollState.colliding, 1)
  else if d < yellow then
    (CollState.approaching, max 0 (min 1 (1 - (d - red) / (yellow - red))))
  else
    (CollState.none, 0)

/-- ControlConfig (types file): optional inversion flags and per-axis
velocity scalars; absent values fall back in the loop via `??`. -/
structure ControlConfig where
  invertStrafe : Option Bool := Option.none
  invertForward : Option Bool := Option.none
  invertAscend : Option Bool := Option.none
  invertPitch : Option Bool := Option.none
  invertYaw : Option Bool := Option.none
  forwardVelocity : Option ℚ := Option.none
  strafeVelocity : Option ℚ := Option.none
  ascendVelocity : Option ℚ := Option.none
  pitchVelocity : Option ℚ := Option.none
  yawVelocity : Option ℚ := Option.none
  deriving DecidableEq, Repr

/-- Currently held logical keys read by the game loop. -/
structure Keys where
  w : Bool := false
  s : Bool := false
  d : Bool := false
  a : Bool := false
  space : Bool := false
  shift : Bool := false
  arrowup : Bool := false
  arrowdown : Bool := false
  arrowleft : Bool := false
  arrowright : Bool := false
  deriving DecidableEq, Repr

/-- Abstraction of `Math.sin` / `Math.cos` used by the physics step. -/
structure Trig where
  sinQ : ℚ → ℚ
  cosQ : ℚ → ℚ

/-- Mutable physics state of the loop: camera position, rotation
(pitch, yaw), roll, linear velocity and angular velocity. -/
structure PhysState where
  pos : Vec3
  rot : ℚ × ℚ
  roll : ℚ
  vel : Vec3
  angVel : ℚ × ℚ
  deriving DecidableEq, Repr

/-- Directional input axes after inversion flags (part_004 lines 1163-1173). -/
structure Axes where
  fwd : ℤ
  str : ℤ
  asc : ℤ
  pitchInput : ℤ
  yawInput : ℤ
  deriving DecidableEq, Repr

/-- Boolean key to 0/1 contribution, `(keys.has(k) ? 1 : 0)`. -/
def boolToInt (b : Bool) : ℤ := if b then 1 else 0

/-- Input axes from held keys and inversion flags (lines 1163-1173). -/
def inputAxes (controls : ControlConfig) (keys : Keys) : Axes :=
  let fwd := boolToInt keys.w - boolToInt keys.s
  let fwd := if controls.invertForward.getD false then -fwd else fwd
  let str := boolToInt keys.d - boolToInt keys.a
  let str := if controls.invertStrafe.getD false then -str else str
  let asc := boolToInt keys.space - boolToInt keys.shift
  let asc := if controls.invertAscend.getD false then -asc else asc
  let pitchInput := boolToInt keys.arrowdown - boolToInt keys.arrowup
  let pitchInput := if controls.invertPitch.getD false then -pitchInput else pitchInput
  let yawInput := boolToInt keys.arrowright - boolToInt keys.arrowleft
  let yawInput := if controls.invertYaw.getD false then -yawInput else yawInput
  ⟨fwd, str, asc, pitchInput, yawInput⟩

/-- Exponentially smoothed linear velocity of the frame
(part_004 lines 1175-1199): direction basis from yaw and the
pitch trimmed by `FLIGHT_PITCH_OFFSET = 0.1`, target velocity from the
input axes and per-axis velocity scalars (`?? 1`), then
`v += (target - v) * 0.1` componentwise. -/
def smoothedVelocity (trig : Trig) (controls : ControlConfig) (keys : Keys)
    (st : PhysState) : Vec3 :=
  let ax := inputAxes controls keys
  let p := st.rot.1
  let y := st.rot.2
  let spd : ℚ := 1
  let off := p - 1/10
  let dirX := trig.sinQ y * trig.cosQ off
  let dirY := -(trig.sinQ off)
  let dirZ := trig.cosQ y * trig.cosQ off
  let rightX := trig.cosQ y
  let rightZ := -(trig.sinQ y)
  let fv := controls.forwardVelocity.getD 1
  let sv := controls.strafeVelocity.getD 1
  let av := controls.ascendVelocity.getD 1
  let tVX := (dirX * (ax.fwd : ℚ) * fv + rightX * (ax.str : ℚ) * sv) * spd
  let tVY := (dirY * (ax.fwd : ℚ) * fv + (ax.asc : ℚ) * av) * spd
  let tVZ := (dirZ * (ax.fwd : ℚ) * fv + rightZ * (ax.str : ℚ) * sv) * spd
  ⟨st.vel.x + (tVX - st.vel.x) * (1/10),
   st.vel.y + (tVY - st.vel.y) * (1/10),
   st.vel.z + (tVZ - st.vel.z) * (1/10)⟩

/-- Proposed position of the frame (lines 1202-1205):
current position plus smoothed velocity times `dt`. -/
def proposedPosition (trig : Trig) (controls : ControlConfig) (keys : Keys)
    (dt : ℚ) (st : PhysState) : Vec3 :=
  let v := smoothedVelocity trig controls keys st
  ⟨st.pos.x + v.x * dt, st.pos.y + v.y * dt, st.pos.z + v.z * dt⟩

/-- Result of one physics step: new state plus the frame's collision
classification and proximity. -/
structure PhysOut where
  state : PhysState
  collState : CollState
  proximity : ℚ

/-- One frame of the camera/physics portion of the game loop
(part_004 lines 1161-1267): velocity smoothing, proposed position,
collision classification for the collidable session (`sessionId === '1'`)
with full veto (velocity zeroed, position not committed) on `colliding`,
then angular-velocity smoothing, pitch clamp to ±1.57 and roll banking. -/
def physicsStep (trig : Trig) (dist : Vec3 → ℚ) (red yellow : ℚ)
    (sessionId : String) (controls : ControlConfig) (keys : Keys)
    (dt : ℚ) (st : PhysState) : PhysOut :=
  let v := smoothedVelocity trig controls keys st
  let proposed := proposedPosition trig controls keys dt st
  let cls :=
    if sessionId = "1" then classifyCollision red yellow (dist proposed)
    else (CollState.none, 0)
  let v' := if cls.1 = CollState.colliding then (⟨0, 0, 0⟩ : Vec3) else v
  let pos' := if cls.1 ≠ CollState.colliding then proposed else st.pos
  let ax := inputAxes controls keys
  let rotSpd : ℚ := 1
  let tRotX := (ax.pitchInput : ℚ) * rotSpd * (controls.pitchVelocity.getD (3/10))
  let tRotY := (ax.yawInput : ℚ) * rotSpd * (controls.yawVelocity.getD (3/10))
  let avX := st.angVel.1 + (tRotX - st.angVel.1) * (7/100)
  let avY := st.angVel.2 + (tRotY - st.angVel.2) * (7/100)
  let rot' := (max (-(157/100)) (min (157/100) (st.rot.1 + avX * dt)),
               st.rot.2 + avY * dt)
  let roll' := st.roll +
    (-(ax.yawInput : ℚ) * (controls.yawVelocity.getD (3/10)) * (3/4) * (2/5) - st.roll) * (1/10)
  ⟨⟨pos', rot', roll', v', (avX, avY)⟩, cls.1, cls.2⟩

/-- Modulation sources (types file `ModulationSource`). -/
inductive ModulationSource where
  | speed
  | acceleration
  | altitude
  | descent
  | turning
  | turningSigned
  | heading
  | pitch
  | proximity
  | time
  deriving DecidableEq, Repr

/-- Audio modulation targets (types file `ModulationTarget`). -/
inductive ModulationTarget where
  | masterVolume
  | droneGain
  | droneFilter
  | dronePitch
  | atmosphereGain
  | arpGain
  | arpSpeed
  | arpFilter
  | arpOctaves
  | arpDirection
  | rhythmGain
  | rhythmFilter
  | rhythmBpm
  | melodyGain
  | melodyDensity
  | reverbMix
  | reverbTone
  deriving DecidableEq, Repr

/-- Modulation routing record `{id, enabled, source, target, amount}`. -/
structure Modulation where
  id : String
  enabled : Bool
  source : ModulationSource
  target : ModulationTarget
  amount : ℚ
  deriving DecidableEq, Repr

/-- MOD_RANGES table (part_004 lines 175-183): what 100% modulation
means for each audio target. -/
def modRanges : ModulationTarget → ℚ
  | .masterVolume => 1
  | .droneGain => 1
  | .droneFilter => 2000
  | .dronePitch => 24
  | .atmosphereGain => 1
  | .arpGain => 1
  | .arpSpeed => 3
  | .arpFilter => 4000
  | .arpOctaves => 3
  | .arpDirection => 1
  | .rhythmGain => 1
  | .rhythmFilter => 2000
  | .rhythmBpm => 100
  | .melodyGain => 1
  | .melodyDensity => 1
  | .reverbMix => 1
  | .reverbTone => 5000

/-- Atmosphere texture choice. -/
inductive Texture where
  | smooth
  | grit
  deriving DecidableEq, Repr

/-- Melody scale choice. -/
inductive ScaleName where
  | dorian
  | phrygian
  | lydian
  deriving DecidableEq, Repr

/-- Arpeggio direction choice. -/
inductive ArpDirection where
  | up
  | down
  | updown
  | random
  deriving DecidableEq, Repr

/-- Reverb section of SoundConfig. -/
structure ReverbConfig where
  enabled : Bool
  mix : ℚ
  decay : ℚ
  tone : ℚ
  deriving DecidableEq, Repr

/-- Drone section of SoundConfig. -/
structure DroneConfig where
  enabled : Bool
  gain : ℚ
  filter : ℚ
  pitch : ℚ
  deriving DecidableEq, Repr

/-- Atmosphere section of SoundConfig. -/
structure AtmosphereConfig where
  enabled : Bool
  gain : ℚ
  texture : Texture
  deriving DecidableEq, Repr

/-- Melody section of SoundConfig. -/
structure MelodyConfig where
  enabled : Bool
  gain : ℚ
  density : ℚ
  scale : ScaleName
  deriving DecidableEq, Repr

/-- Arp section of SoundConfig (octaves is used as a plain number by the
loop, so it is modelled as `ℚ`). -/
structure ArpConfig where
  enabled : Bool
  gain : ℚ
  speed : ℚ
  octaves : ℚ
  filter : ℚ
  direction : ArpDirection
  deriving DecidableEq, Repr

/-- Rhythm section of SoundConfig. -/
structure RhythmConfig where
  enabled : Bool
  gain : ℚ
  bpm : ℚ
  filter : ℚ
  deriving DecidableEq, Repr

/-- SoundConfig (types file): the session-owned audio configuration. -/
structure SoundConfig where
  enabled : Bool
  masterVolume : ℚ
  reverb : ReverbConfig
  drone : DroneConfig
  atmosphere : AtmosphereConfig
  melody : MelodyConfig
  arp : ArpConfig
  rhythm : RhythmConfig
  modulations : List Modulation
  deriving DecidableEq, Repr

/-- defaultSoundConfig (part_004 lines 116-172), including its six
built-in modulation routings. -/
def defaultSoundConfig : SoundConfig where
  enabled := true
  masterVolume := 1/2
  reverb := ⟨true, 1/2, 5, 2000⟩
  drone := ⟨true, 2/5, 100, 0⟩
  atmosphere := ⟨true, 1/5, Texture.grit⟩
  melody := ⟨true, 3/10, 2/5, ScaleName.dorian⟩
  arp := ⟨true, 1/4, 1, 2, 600, ArpDirection.updown⟩
  rhythm := ⟨true, 2/5, 60, 150⟩
  modulations :=
    [⟨"1", true, .speed, .droneFilter, 2/5⟩,
     ⟨"5", true, .altitude, .atmosphereGain, 3/20⟩,
     ⟨"6", true, .altitude, .dronePitch, -(1/10)⟩,
     ⟨"new1", true, .pitch, .arpDirection, 3/2⟩,
     ⟨"new2", true, .speed, .arpSpeed, 4/5⟩,
     ⟨"new3", true, .pitch, .arpOctaves, 1⟩]

/-- Per-frame base values of the router accumulators (part_004 lines
1320-1336): a snapshot of the current sound config, except
`arp.direction` whose base is 0 (the configured direction is an enum
handled separately; the accumulator holds only the modulation offset). -/
def baseValues (sound : SoundConfig) : ModulationTarget → ℚ
  | .masterVolume => sound.masterVolume
  | .droneGain => sound.drone.gain
  | .droneFilter => sound.drone.filter
  | .dronePitch => sound.drone.pitch
  | .atmosphereGain => sound.atmosphere.gain
  | .arpGain => sound.arp.gain
  | .arpSpeed => sound.arp.speed
  | .arpFilter => sound.arp.filter
  | .arpOctaves => sound.arp.octaves
  | .arpDirection => 0
  | .rhythmGain => sound.rhythm.gain
  | .rhythmFilter => sound.rhythm.filter
  | .rhythmBpm => sound.rhythm.bpm
  | .melodyGain => sound.melody.gain
  | .melodyDensity => sound.melody.density
  | .reverbMix => sound.reverb.mix
  | .reverbTone => sound.reverb.tone

/-- One iteration of the router loop (part_004 lines 1338-1344): a
disabled modulation contributes nothing, otherwise
`acc[target] += telemetry[source] * amount * MOD_RANGES[target]`.
(The source record always holds a number for every source, and every
entry of MOD_RANGES is nonzero, so the `|| 0` / `|| 1.0` fallbacks of
the source are identities.) -/
def applyMod (telem : ModulationSource → ℚ) (acc : ModulationTarget → ℚ)
    (m : Modulation) : ModulationTarget → ℚ :=
  if m.enabled then
    fun t =>
      if t = m.target then acc t + telem m.source * m.amount * modRanges m.target
      else acc t
  else acc

/-- Modulation router: fold the router loop over the modulation list,
starting from the base values. -/
def route (base : ModulationTarget → ℚ) (mods : List Modulation)
    (telem : ModulationSource → ℚ) : ModulationTarget → ℚ :=
  mods.foldl (applyMod telem) base

/-- Per-target merge of two independently routed results (the spec's
"merging the per-target results"): a target owned by the first list takes
the first routing's value, any other target takes the second routing's
value. -/
def mergeRouted (base : ModulationTarget → ℚ) (l1 l2 : List Modulation)
    (telem : ModulationSource → ℚ) : ModulationTarget → ℚ :=
  fun t =>
    if l1.any (fun m => decide (m.target = t)) then route base l1 telem t
    else route base l2 telem t

/-- Effective arp direction (part_004 lines 666-670): a direction
modulation above 0.3 forces up, below -0.3 forces down, otherwise the
configured direction stands. -/
def arpDirectionChoice (cfgDir : ArpDirection) (dirMod : ℚ) : ArpDirection :=
  if dirMod > 3/10 then ArpDirection.up
  else if dirMod < -(3/10) then ArpDirection.down
  else cfgDir

/-- Arp index update of `playArpNote` (part_004 lines 672-691) on the
state (index, internal direction): `up` / `down` step modulo
`totalNotes` (JS `%`, modelled with `Int.tmod`), `random` jumps to the
externally supplied random index, `updown` adds the internal direction
and bounces at both ends flipping the direction flag; finally the index
is clamped into `[0, totalNotes - 1]`. -/
def arpAdvance (direction : ArpDirection) (totalNotes : ℤ) (randIdx : ℤ)
    (st : ℤ × ℤ) : ℤ × ℤ :=
  let next :=
    match direction with
    | ArpDirection.up => (Int.tmod (st.1 + 1) totalNotes, st.2)
    | ArpDirection.down => (Int.tmod (st.1 - 1 + totalNotes) totalNotes, st.2)
    | ArpDirection.random => (randIdx, st.2)
    | ArpDirection.updown =>
        let idx := st.1 + st.2
        if idx ≥ totalNotes - 1 then (totalNotes - 1, -1)
        else if idx ≤ 0 then (0, 1)
        else (idx, st.2)
  (max 0 (min (totalNotes - 1) next.1), next.2)

/-- Trajectory of the arp state under `updown` with 8 total notes,
starting from index 0 with internal direction up (the initial values of
`arpNoteIndexRef` and `arpInternalDirectionRef`). -/
def arpIter (n : ℕ) : ℤ × ℤ :=
  (arpAdvance ArpDirection.updown 8 0)^[n] (0, 1)

/-- Closed form of the updown trajectory: period 14, triangle wave on
the index, direction up on residues 0-6 and down on residues 7-13. -/
def arpPhase (n : ℕ) : ℤ × ℤ :=
  (if n % 14 ≤ 7 then ((n % 14 : ℕ) : ℤ) else 14 - ((n % 14 : ℕ) : ℤ),
   if n % 14 ≤ 6 then 1 else -1)

/-- Live sequencer parameters (the `liveAudioStateRef` record). -/
structure LiveAudioState where
  rhythmBpm : ℚ
  arpSpeed : ℚ
  arpOctaves : ℚ
  melodyDensity : ℚ
  deriving DecidableEq, Repr

/-- Clamping of routed sequencer parameters (part_004 lines 1374-1377):
BPM into [30,300], arp speed into [0.1,5], arp octaves into [1,5],
melody density into [0,1]. -/
def clampLive (acc : ModulationTarget → ℚ) : LiveAudioState where
  rhythmBpm := max 30 (min 300 (acc ModulationTarget.rhythmBpm))
  arpSpeed := max (1/10) (min 5 (acc ModulationTarget.arpSpeed))
  arpOctaves := max 1 (min 5 (acc ModulationTarget.arpOctaves))
  melodyDensity := max 0 (min 1 (acc ModulationTarget.melodyDensity))

/-- Lookahead window of the event scheduler (part_004 line 1380). -/
def lookahead : ℚ := 1/10

/-- Melody rescheduling interval (line 1386): `(60/bpm) * (r*4+4)` for a
uniform random `r ∈ [0,1]`. -/
def melodyInterval (bpm r : ℚ) : ℚ := (60 / bpm) * (r * 4 + 4)

/-- Arp rescheduling interval (line 1391): `(60/bpm) / (arpSpeed*4)`. -/
def arpInterval (bpm speed : ℚ) : ℚ := (60 / bpm) / (speed * 4)

/-- Rhythm rescheduling interval (line 1396): `60/bpm`. -/
def rhythmInterval (bpm : ℚ) : ℚ := 60 / bpm

/-- Per-instrument next-event times on the audio clock. -/
structure SchedTimes where
  melody : ℚ
  arp : ℚ
  rhythm : ℚ
  deriving DecidableEq, Repr

/-- Outcome of one frame of the scheduling block: for each instrument,
the audio-time handed to its fired event (when it fired), whether the
probabilistic melody note actually sounded, and the advanced next-event
times. -/
structure SchedFrame where
  melody : Option ℚ
  melodyNotePlayed : Bool
  arp : Option ℚ
  rhythm : Option ℚ
  next : SchedTimes
  deriving DecidableEq, Repr

/-- One frame of the audio event scheduler (part_004 lines 1379-1397).
Each enabled instrument fires once the audio clock is within the
lookahead of its next-event time; the event is given
`max(audioNow, nextEventTime)` and the next-event time advances by the
instrument's interval.  `melodyRand` and `ivalRand` model the two
`Math.random()` draws of the melody branch. -/
def scheduleFrame (melodyEnabled arpEnabled rhythmEnabled : Bool)
    (audioNow : ℚ) (live : LiveAudioState) (melodyRand ivalRand : ℚ)
    (times : SchedTimes) : SchedFrame :=
  let melodyFires := melodyEnabled ∧ audioNow ≥ times.melody - lookahead
  let arpFires := arpEnabled ∧ audioNow ≥ times.arp - lookahead
  let rhythmFires := rhythmEnabled ∧ audioNow ≥ times.rhythm - lookahead
  { melody := if melodyFires then some (max audioNow times.melody) else Option.none
    melodyNotePlayed :=
      if melodyFires then decide (melodyRand < live.melodyDensity) else false
    arp := if arpFires then some (max audioNow times.arp) else Option.none
    rhythm := if rhythmFires then some (max audioNow times.rhythm) else Option.none
    next :=
      { melody :=
          if melodyFires then times.melody + melodyInterval live.rhythmBpm ivalRand
          else times.melody
        arp :=
          if arpFires then times.arp + arpInterval live.rhythmBpm live.arpSpeed
          else times.arp
        rhythm :=
          if rhythmFires then times.rhythm + rhythmInterval live.rhythmBpm
          else times.rhythm } }

/-- Possibly-absent reverb section of a loaded session's sound config. -/
structure ReverbPatch where
  enabled : Option Bool := Option.none
  mix : Option ℚ := Option.none
  decay : Option ℚ := Option.none
  tone : Option ℚ := Option.none
  deriving DecidableEq, Repr

/-- Possibly-absent drone section of a loaded session's sound config. -/
structure DronePatch where
  enabled : Option Bool := Option.none
  gain : Option ℚ := Option.none
  filter : Option ℚ := Option.none
  pitch : Option ℚ := Option.none
  deriving DecidableEq, Repr

/-- Possibly-absent atmosphere section of a loaded session's sound config. -/
structure AtmospherePatch where
  enabled : Option Bool := Option.none
  gain : Option ℚ := Option.none
  texture : Option Texture := Option.none
  deriving DecidableEq, Repr

/-- Possibly-absent melody section of a loaded session's sound config. -/
structure MelodyPatch where
  enabled : Option Bool := Option.none
  gain : Option ℚ := Option.none
  density : Option ℚ := Option.none
  scale : Option ScaleName := Option.none
  deriving DecidableEq, Repr

/-- Possibly-absent arp section of a loaded session's sound config. -/
structure ArpPatch where
  enabled : Option Bool := Option.none
  gain : Option ℚ := Option.none
  speed : Option ℚ := Option.none
  octaves : Option ℚ := Option.none
  filter : Option ℚ := Option.none
  direction : Option ArpDirection := Option.none
  deriving DecidableEq, Repr

/-- Possibly-absent rhythm section of a loaded session's sound config. -/
structure RhythmPatch where
  enabled : Option Bool := Option.none
  gain : Option ℚ := Option.none
  bpm : Option ℚ := Option.none
  filter : Option ℚ := Option.none
  deriving DecidableEq, Repr

/-- A loaded session's sound config, every field possibly absent (a JSON
object need not carry all fields of the TypeScript interface). -/
structure SoundConfigPatch where
  enabled : Option Bool := Option.none
  masterVolume : Option ℚ := Option.none
  reverb : Option ReverbPatch := Option.none
  drone : Option DronePatch := Option.none
  atmosphere : Option AtmospherePatch := Option.none
  melody : Option MelodyPatch := Option.none
  arp : Option ArpPatch := Option.none
  rhythm : Option RhythmPatch := Option.none
  modulations : Option (List Modulation) := Option.none
  deriving DecidableEq, Repr

/-- Spread-merge of the reverb section,
`{...defaultSoundConfig.reverb, ...(loadedSoundConfig?.reverb || {})}`. -/
def mergeReverb (dflt : ReverbConfig) (p : Option ReverbPatch) : ReverbConfig :=
  let q := p.getD {}
  ⟨q.enabled.getD dflt.enabled, q.mix.getD dflt.mix,
   q.decay.getD dflt.decay, q.tone.getD dflt.tone⟩

/-- Spread-merge of the drone section. -/
def mergeDrone (dflt : DroneConfig) (p : Option DronePatch) : DroneConfig :=
  let q := p.getD {}
  ⟨q.enabled.getD dflt.enabled, q.gain.getD dflt.gain,
   q.filter.getD dflt.filter, q.pitch.getD dflt.pitch⟩

/-- Spread-merge of the atmosphere section. -/
def mergeAtmosphere (dflt : AtmosphereConfig) (p : Option AtmospherePatch) :
    AtmosphereConfig :=
  let q := p.getD {}
  ⟨q.enabled.getD dflt.enabled, q.gain.getD dflt.gain,
   q.texture.getD dflt.texture⟩

/-- Spread-merge of the melody section. -/
def mergeMelody (dflt : MelodyConfig) (p : Option MelodyPatch) : MelodyConfig :=
  let q := p.getD {}
  ⟨q.enabled.getD dflt.enabled, q.gain.getD dflt.gain,
   q.density.getD dflt.density, q.scale.getD dflt.scale⟩

/-- Spread-merge of the arp section. -/
def mergeArp (dflt : ArpConfig) (p : Option ArpPatch) : ArpConfig :=
  let q := p.getD {}
  ⟨q.enabled.getD dflt.enabled, q.gain.getD dflt.gain,
   q.speed.getD dflt.speed, q.octaves.getD dflt.octaves,
   q.filter.getD dflt.filter, q.direction.getD dflt.direction⟩

/-- Spread-merge of the rhythm section. -/
def mergeRhythm (dflt : RhythmConfig) (p : Option RhythmPatch) : RhythmConfig :=
  let q := p.getD {}
  ⟨q.enabled.getD dflt.enabled, q.gain.getD dflt.gain,
   q.bpm.getD dflt.bpm, q.filter.getD dflt.filter⟩

/-- The `mergedSoundConfig` computation of `applySessionState`
(part_004 lines 788-799): defaults under the loaded value, each section
spread-merged field by field, and
`modulations: loadedSoundConfig?.modulations || defaultSoundConfig.modulations`
(a present array, even an empty one, is truthy and is kept; an absent
one falls back to the DEFAULT modulation list). -/
def mergeSoundConfig (loaded : Option SoundConfigPatch) : SoundConfig where
  enabled := (loaded.bind (·.enabled)).getD defaultSoundConfig.enabled
  masterVolume := (loaded.bind (·.masterVolume)).getD defaultSoundConfig.masterVolume
  reverb := mergeReverb defaultSoundConfig.reverb (loaded.bind (·.reverb))
  drone := mergeDrone defaultSoundConfig.drone (loaded.bind (·.drone))
  atmosphere := mergeAtmosphere defaultSoundConfig.atmosphere (loaded.bind (·.atmosphere))
  melody := mergeMelody defaultSoundConfig.melody (loaded.bind (·.melody))
  arp := mergeArp defaultSoundConfig.arp (loaded.bind (·.arp))
  rhythm := mergeRhythm defaultSoundConfig.rhythm (loaded.bind (·.rhythm))
  modulations := (loaded.bind (·.modulations)).getD defaultSoundConfig.modulations

/-- The JSON snapshot of the current sound config as written by
`getSessionState` (part_004 line 1051) and read back from the saved
file: the full config, so every field of the patch is present. -/
def serializedSoundConfig (cfg : SoundConfig) : SoundConfigPatch where
  enabled := some cfg.enabled
  masterVolume := some cfg.masterVolume
  reverb := some ⟨some cfg.reverb.enabled, some cfg.reverb.mix,
                  some cfg.reverb.decay, some cfg.reverb.tone⟩
  drone := some ⟨some cfg.drone.enabled, some cfg.drone.gain,
                 some cfg.drone.filter, some cfg.drone.pitch⟩
  atmosphere := some ⟨some cfg.atmosphere.enabled, some cfg.atmosphere.gain,
                      some cfg.atmosphere.texture⟩
  melody := some ⟨some cfg.melody.enabled, some cfg.melody.gain,
                  some cfg.melody.density, some cfg.melody.scale⟩
  arp := some ⟨some cfg.arp.enabled, some cfg.arp.gain, some cfg.arp.speed,
               some cfg.arp.octaves, some cfg.arp.filter, some cfg.arp.direction⟩
  rhythm := some ⟨some cfg.rhythm.enabled, some cfg.rhythm.gain,
                  some cfg.rhythm.bpm, some cfg.rhythm.filter⟩
  modulations := some cfg.modulations

/-- Loaded red collision threshold (part_004 line 844):
`sessionState.collisionThresholdRed ?? 0.002`. -/
def loadedCollisionThresholdRed (st : Option ℚ) : ℚ := st.getD (1/500)

/-- Loaded yellow collision threshold (part_004 line 845):
`sessionState.collisionThresholdYellow ?? 0.02`. -/
def loadedCollisionThresholdYellow (st : Option ℚ) : ℚ := st.getD (1/50)

/-- Exact rational value of the IEEE-754 double `Math.PI * 2`
(the double for pi is 884279719003555 / 2^48; doubling is exact). -/
def twoPiDouble : ℚ := 884279719003555 / 140737488355328

/-- Truncation toward zero, the rounding used by the JS `%` operator. -/
def jsTrunc (q : ℚ) : ℤ := if q < 0 then -(⌊-q⌋) else ⌊q⌋

/-- JavaScript remainder `a % b`: `a - b * trunc(a / b)`; it keeps the
sign of the dividend. -/
def jsRem (a b : ℚ) : ℚ := a - b * (jsTrunc (a / b) : ℚ)

/-- Heading telemetry source (part_004 line 1306):
`(rotation[1] % (Math.PI * 2)) / (Math.PI * 2)` with the JS remainder. -/
def headingTelemetry (yaw : ℚ) : ℚ := jsRem yaw twoPiDouble / twoPiDouble

end ShaderPilot

namespace ShaderPilot

/-- Proximity is never negative, whatever the branch. -/
lemma classify_snd_nonneg (red yellow d : ℚ) :
    0 ≤ (classifyCollision red yellow d).2 := by
  unfold classifyCollision
  split
  · norm_num
  · split
    · exact le_max_left 0 _
    · norm_num

/-- Proximity never exceeds 1, whatever the branch. -/
lemma classify_snd_le_one (red yellow d : ℚ) :
    (classifyCollision red yellow d).2 ≤ 1 := by
  unfold classifyCollision
  split
  · norm_num
  · split
    · exact max_le (by norm_num) (min_le_left _ _)
    · norm_num

/-- C2. Collision classification and proximity: with `red < yellow`,
distances under the red threshold classify as colliding with proximity
exactly 1; distances in `[red, yellow)` classify as approaching with the
clamped inverted linear interpolation; all other distances classify as
none with proximity exactly 0; proximity is non-increasing in the
distance, equals exactly 1 at or under the red threshold and exactly 0
at or over the yellow threshold. -/
theorem collision_classification (red yellow : ℚ) (h : red < yellow) :
    (∀ d, d < red → classifyCollision red yellow d = (CollState.colliding, 1)) ∧
    (∀ d, red ≤ d → d < yellow →
      classifyCollision red yellow d =
        (CollState.approaching, max 0 (min 1 (1 - (d - red) / (yellow - red))))) ∧
    (∀ d, yellow ≤ d → classifyCollision red yellow d = (CollState.none, 0)) ∧
    (∀ d₁ d₂, d₁ ≤ d₂ →
      (classifyCollision red yellow d₂).2 ≤ (classifyCollision red yellow d₁).2) ∧
    (∀ d, d ≤ red → (classifyCollision red yellow d).2 = 1) ∧
    (∀ d, yellow ≤ d → (classifyCollision red yellow d).2 = 0) := by
  have hyr : 0 < yellow - red := by linarith
  have val_approaching : ∀ d, red ≤ d → d < yellow →
      classifyCollision red yellow d =
        (CollState.approaching, max 0 (min 1 (1 - (d - red) / (yellow - red)))) := by
    intro d h1 h2
    unfold classifyCollision
    rw [if_neg (not_lt.mpr h1), if_pos h2]
  have val_none : ∀ d, yellow ≤ d → classifyCollision red yellow d = (CollState.none, 0) := by
    intro d hd
    unfold classifyCollision
    rw [if_neg (not_lt.mpr (le_trans h.le hd)), if_neg (not_lt.mpr hd)]
  have val_colliding : ∀ d, d < red →
      classifyCollision red yellow d = (CollState.colliding, 1) := by
    intro d hd
    unfold classifyCollision
    rw [if_pos hd]
  refine ⟨val_colliding, val_approaching, val_none, ?_, ?_, ?_⟩
  · intro d₁ d₂ hle
    by_cases h2r : d₂ < red
    · have h1r : d₁ < red := lt_of_le_of_lt hle h2r
      rw [val_colliding _ h1r, val_colliding _ h2r]
    · by_cases h2y : d₂ < yellow
      · have h2red : red ≤ d₂ := not_lt.mp h2r
        rw [val_approaching _ h2red h2y]
        by_cases h1r : d₁ < red
        · rw [val_colliding _ h1r]
          exact max_le (by norm_num) (min_le_left _ _)
        · have h1red : red ≤ d₁ := not_lt.mp h1r
          have h1y : d₁ < yellow := lt_of_le_of_lt hle h2y
          rw [val_approaching _ h1red h1y]
          have hdiv : (d₁ - red) / (yellow - red) ≤ (d₂ - red) / (yellow - red) :=
            (div_le_div_iff_of_pos_right hyr).mpr (by linarith)
          exact max_le_max le_rfl (min_le_min le_rfl (by linarith))
      · have h2yel : yellow ≤ d₂ := not_lt.mp h2y
        rw [val_none _ h2yel]
        exact classify_snd_nonneg red yellow d₁
  · intro d hd
    by_cases hlt : d < red
    · rw [val_colliding _ hlt]
    · have : d = red := le_antisymm hd (not_lt.mp hlt)
      subst this
      rw [val_approaching _ le_rfl h]
      simp
  · intro d hd
    rw [val_none _ hd]

/-- Witness for C2 at the default thresholds 0.002 and 0.02: a distance
of 0.001 classifies as colliding with proximity 1. -/
theorem collision_classification_check :
    (1/500 : ℚ) < 1/50 ∧
    classifyCollision (1/500) (1/50) (1/1000) = (CollState.colliding, 1) :=
  ⟨by norm_num,
   (collision_classification (1/500) (1/50) (by norm_num)).1 (1/1000) (by norm_num)⟩

end ShaderPilot

namespace ShaderPilot

/-- C1. Collision veto: in a frame of the collidable session
(`sessionId === '1'`) where the distance function at the proposed
position is under the red threshold, the committed camera position at
the end of the physics step equals the position at the start of the
frame (the displacement is fully vetoed), and all three components of
the camera velocity are exactly zero after the collision branch. -/
theorem collision_full_veto (trig : Trig) (dist : Vec3 → ℚ) (red yellow : ℚ)
    (controls : ControlConfig) (keys : Keys) (dt : ℚ) (st : PhysState)
    (hd : dist (proposedPosition trig controls keys dt st) < red) :
    (physicsStep trig dist red yellow "1" controls keys dt st).state.pos = st.pos ∧
    (physicsStep trig dist red yellow "1" controls keys dt st).state.vel = ⟨0, 0, 0⟩ := by
  unfold physicsStep classifyCollision
  simp only [if_pos rfl, if_pos hd, ne_eq]
  simp

/-- Witness for C1: with zero-valued trig and distance stubs, default
controls, no keys held and the initial camera state, the step leaves the
position unchanged and zeroes the velocity. -/
theorem collision_full_veto_check :
    (fun _ : Vec3 => (0 : ℚ))
        (proposedPosition ⟨fun _ => 0, fun _ => 1⟩ {} {} (1/100)
          ⟨⟨0, -(149/100), 0⟩, (1/10, 0), 0, ⟨0, 0, 0⟩, (0, 0)⟩) < 1/500 ∧
    ((physicsStep ⟨fun _ => 0, fun _ => 1⟩ (fun _ => 0) (1/500) (1/50) "1" {} {} (1/100)
        ⟨⟨0, -(149/100), 0⟩, (1/10, 0), 0, ⟨0, 0, 0⟩, (0, 0)⟩).state.pos =
      ⟨0, -(149/100), 0⟩ ∧
     (physicsStep ⟨fun _ => 0, fun _ => 1⟩ (fun _ => 0) (1/500) (1/50) "1" {} {} (1/100)
        ⟨⟨0, -(149/100), 0⟩, (1/10, 0), 0, ⟨0, 0, 0⟩, (0, 0)⟩).state.vel = ⟨0, 0, 0⟩) :=
  ⟨by norm_num,
   collision_full_veto ⟨fun _ => 0, fun _ => 1⟩ (fun _ => 0) (1/500) (1/50) {} {} (1/100)
     ⟨⟨0, -(149/100), 0⟩, (1/10, 0), 0, ⟨0, 0, 0⟩, (0, 0)⟩ (by norm_num)⟩

/-- Unfolding the router over a cons cell. -/
lemma route_cons (base : ModulationTarget → ℚ) (m : Modulation)
    (ms : List Modulation) (telem : ModulationSource → ℚ) :
    route base (m :: ms) telem = route (applyMod telem base m) ms telem := rfl

/-- Reference form of the router: the routed value of a target is the
base value plus the sum, over exactly the enabled modulations with that
target, of `telemetry[source] * amount * range[target]`. -/
lemma route_sum (telem : ModulationSource → ℚ) (mods : List Modulation)
    (base : ModulationTarget → ℚ) (t : ModulationTarget) :
    route base mods telem t =
      base t + ((mods.filter fun m => m.enabled && decide (m.target = t)).map
        (fun m => telem m.source * m.amount * modRanges t)).sum := by
  induction mods generalizing base with
  | nil => simp [route]
  | cons m ms ih =>
      rw [route_cons, ih]
      by_cases he : m.enabled = true
      · by_cases ht : m.target = t
        · subst ht
          simp only [List.filter_cons, he, decide_eq_true_eq, Bool.and_self,
            decide_true_eq_true, if_true, List.map_cons, List.sum_cons]
          simp [applyMod, he]
          ring
        · have ht2 : ¬ t = m.target := fun h => ht h.symm
          simp [List.filter_cons, applyMod, he, ht, ht2]
      · have he2 : m.enabled = false := Bool.not_eq_true _ |>.mp he
        simp [List.filter_cons, applyMod, he2]

/-- C3. Modulation router reference definition: the routed value of
every target is the base value snapshotted from the current sound config
plus the sum over exactly the enabled modulations with that target of
`telemetry[source] * amount * range[target]`; with an empty modulation
list, or with every amount equal to zero, the routed value of every
target equals the base value. -/
theorem router_reference (sound : SoundConfig) (mods : List Modulation)
    (telem : ModulationSource → ℚ) :
    (∀ t, route (baseValues sound) mods telem t =
        baseValues sound t +
          ((mods.filter fun m => m.enabled && decide (m.target = t)).map
            (fun m => telem m.source * m.amount * modRanges t)).sum) ∧
    (∀ t, route (baseValues sound) [] telem t = baseValues sound t) ∧
    ((∀ m ∈ mods, m.amount = 0) →
      ∀ t, route (baseValues sound) mods telem t = baseValues sound t) := by
  refine ⟨fun t => route_sum telem mods (baseValues sound) t,
          fun t => rfl, fun hz t => ?_⟩
  rw [route_sum]
  have hsum :
      ((mods.filter fun m => m.enabled && decide (m.target = t)).map
        (fun m => telem m.source * m.amount * modRanges t)).sum = 0 := by
    apply List.sum_eq_zero
    intro x hx
    obtain ⟨m, hm, hmx⟩ := List.mem_map.mp hx
    have hmem : m ∈ mods := (List.mem_filter.mp hm).1
    rw [← hmx, hz m hmem]
    ring
  rw [hsum, add_zero]

/-- Witness for C3: a single zero-amount modulation routed over the
default config leaves the drone filter base value unchanged. -/
theorem router_reference_check :
    route (baseValues defaultSoundConfig)
        [⟨"z", true, ModulationSource.speed, ModulationTarget.droneFilter, 0⟩]
        (fun _ => 1) ModulationTarget.droneFilter =
      baseValues defaultSoundConfig ModulationTarget.droneFilter :=
  (router_reference defaultSoundConfig
      [⟨"z", true, ModulationSource.speed, ModulationTarget.droneFilter, 0⟩]
      (fun _ => 1)).2.2 (by simp) ModulationTarget.droneFilter

end ShaderPilot

namespace ShaderPilot

/-- C6. Router order independence: routing a permuted modulation list
yields the same per-target result, and routing two disjoint-target lists
separately then merging the per-target results equals routing the
concatenated list. -/
theorem router_order_independence (base : ModulationTarget → ℚ)
    (telem : ModulationSource → ℚ) :
    (∀ mods mods' : List Modulation, mods.Perm mods' →
      ∀ t, route base mods telem t = route base mods' telem t) ∧
    (∀ l1 l2 : List Modulation,
      (∀ m1 ∈ l1, ∀ m2 ∈ l2, m1.target ≠ m2.target) →
      ∀ t, mergeRouted base l1 l2 telem t = route base (l1 ++ l2) telem t) := by
  constructor
  · intro mods mods' hp t
    rw [route_sum, route_sum]
    rw [((hp.filter (fun m => m.enabled && decide (m.target = t))).map
      (fun m => telem m.source * m.amount * modRanges t)).sum_eq]
  · intro l1 l2 hdisj t
    have hsplit : route base (l1 ++ l2) telem t =
        base t + (((l1.filter fun m => m.enabled && decide (m.target = t)).map
            (fun m => telem m.source * m.amount * modRanges t)).sum +
          ((l2.filter fun m => m.enabled && decide (m.target = t)).map
            (fun m => telem m.source * m.amount * modRanges t)).sum) := by
      rw [route_sum, List.filter_append, List.map_append, List.sum_append]
    unfold mergeRouted
    by_cases hany : l1.any (fun m => decide (m.target = t)) = true
    · rw [if_pos hany]
      obtain ⟨m1, hm1, hm1t⟩ := List.any_eq_true.mp hany
      have hm1t2 : m1.target = t := of_decide_eq_true hm1t
      have h2 : (l2.filter fun m => m.enabled && decide (m.target = t)) = [] := by
        rw [List.filter_eq_nil_iff]
        intro m2 hm2
        have hne : ¬ m2.target = t := by
          intro h
          exact hdisj m1 hm1 m2 hm2 (hm1t2.trans h.symm)
        simp [hne]
      rw [hsplit, h2, route_sum telem l1 base t]
      simp
    · rw [if_neg hany]
      have h1 : (l1.filter fun m => m.enabled && decide (m.target = t)) = [] := by
        rw [List.filter_eq_nil_iff]
        intro m1 hm1
        have hne : ¬ (decide (m1.target = t) = true) := by
          intro h
          exact hany (List.any_eq_true.mpr ⟨m1, hm1, h⟩)
        simp at hne
        simp [hne]
      rw [hsplit, h1, route_sum telem l2 base t]
      simp
/-- Witness for C6: two concrete single-modulation lists with distinct
targets, swapped and merged, over the default base values. -/
theorem router_order_independence_check :
    route (baseValues defaultSoundConfig)
        [⟨"a", true, ModulationSource.speed, ModulationTarget.droneGain, 1/2⟩,
         ⟨"b", true, ModulationSource.altitude, ModulationTarget.arpGain, 1/4⟩]
        (fun _ => 1) ModulationTarget.droneGain =
      route (baseValues defaultSoundConfig)
        [⟨"b", true, ModulationSource.altitude, ModulationTarget.arpGain, 1/4⟩,
         ⟨"a", true, ModulationSource.speed, ModulationTarget.droneGain, 1/2⟩]
        (fun _ => 1) ModulationTarget.droneGain ∧
    mergeRouted (baseValues defaultSoundConfig)
        [⟨"a", true, ModulationSource.speed, ModulationTarget.droneGain, 1/2⟩]
        [⟨"b", true, ModulationSource.altitude, ModulationTarget.arpGain, 1/4⟩]
        (fun _ => 1) ModulationTarget.arpGain =
      route (baseValues defaultSoundConfig)
        ([⟨"a", true, ModulationSource.speed, ModulationTarget.droneGain, 1/2⟩] ++
         [⟨"b", true, ModulationSource.altitude, ModulationTarget.arpGain, 1/4⟩])
        (fun _ => 1) ModulationTarget.arpGain :=
  ⟨(router_order_independence (baseValues defaultSoundConfig) (fun _ => 1)).1 _ _
      (List.Perm.swap _ _ _) ModulationTarget.droneGain,
   (router_order_independence (baseValues defaultSoundConfig) (fun _ => 1)).2 _ _
      (by decide) ModulationTarget.arpGain⟩

end ShaderPilot

namespace ShaderPilot

/-- The closed form only depends on the residue of the step count mod 14. -/
lemma arp_phase_mod (n : ℕ) : arpPhase n = arpPhase (n % 14) := by
  have h : n % 14 % 14 = n % 14 := by omega
  simp only [arpPhase, h]

/-- One updown step out of a closed-form state advances the residue. -/
lemma arp_phase_step : ∀ r : Fin 14,
    arpAdvance ArpDirection.updown 8 0 (arpPhase (r : ℕ)) = arpPhase ((r : ℕ) + 1) := by
  decide

/-- The updown trajectory from (index 0, direction up) follows the
closed form at every step. -/
lemma arp_iter_eq_phase (n : ℕ) : arpIter n = arpPhase n := by
  induction n with
  | zero => decide
  | succ n ih =>
      have h14 : n % 14 < 14 := Nat.mod_lt _ (by norm_num)
      have hstep := arp_phase_step ⟨n % 14, h14⟩
      have hn : arpPhase (n % 14) = arpPhase n := (arp_phase_mod n).symm
      have hn1 : arpPhase (n % 14 + 1) = arpPhase (n + 1) := by
        rw [arp_phase_mod (n % 14 + 1), arp_phase_mod (n + 1)]
        have : (n % 14 + 1) % 14 = (n + 1) % 14 := by omega
        rw [this]
      rw [arpIter, Function.iterate_succ_apply']
      have hiter : (arpAdvance ArpDirection.updown 8 0)^[n] (0, 1) = arpPhase n := ih
      rw [hiter, ← hn, hstep, hn1]

/-- Counterexample to C4 as stated: the arp index is advanced before the
note fires, so starting from `arpIndex = 0` with internal direction up,
the FIRST fired index is 1, not 0. -/
theorem arp_first_fired_index_ne_zero :
    (arpAdvance ArpDirection.updown 8 0 (0, 1)).1 = 1 ∧ ((1 : ℤ) ≠ 0) := by
  decide

/-- C4 (amended). With a direction modulation within ±0.3 the effective
direction stays the configured `updown`; starting from `arpIndex = 0`
with internal direction up and 8 total notes, the state after n steps
follows the period-14 triangle closed form (so the fired sequence is
1,2,...,7,6,...,1,0,1,2,...), the index never leaves [0, 7], and the
internal direction flag changes only on a step whose fired index is a
bounce at 0 or at 7. -/
theorem arp_updown_amended :
    (∀ dirMod : ℚ, -(3/10) ≤ dirMod → dirMod ≤ 3/10 →
      arpDirectionChoice ArpDirection.updown dirMod = ArpDirection.updown) ∧
    (∀ n : ℕ, arpIter n = arpPhase n ∧
      0 ≤ (arpIter n).1 ∧ (arpIter n).1 ≤ 7 ∧
      ((arpIter (n + 1)).2 ≠ (arpIter n).2 →
        (arpIter (n + 1)).1 = 0 ∨ (arpIter (n + 1)).1 = 7)) := by
  constructor
  · intro dirMod h1 h2
    unfold arpDirectionChoice
    rw [if_neg (by linarith), if_neg (by linarith)]
  · intro n
    have h14 : n % 14 < 14 := Nat.mod_lt _ (by norm_num)
    refine ⟨arp_iter_eq_phase n, ?_, ?_, ?_⟩
    · rw [arp_iter_eq_phase, arp_phase_mod]
      unfold arpPhase
      split <;> omega
    · rw [arp_iter_eq_phase, arp_phase_mod]
      unfold arpPhase
      split <;> omega
    · rw [arp_iter_eq_phase, arp_iter_eq_phase, arp_phase_mod n,
        arp_phase_mod (n + 1)]
      have hmod : (n + 1) % 14 = (n % 14 + 1) % 14 := by omega
      rw [hmod]
      have key : ∀ r : Fin 14,
          (arpPhase (((r : ℕ) + 1) % 14)).2 ≠ (arpPhase (r : ℕ)).2 →
          (arpPhase (((r : ℕ) + 1) % 14)).1 = 0 ∨
          (arpPhase (((r : ℕ) + 1) % 14)).1 = 7 := by
        decide
      exact key ⟨n % 14, h14⟩

/-- Witness for C4 (amended): a zero direction modulation keeps updown,
and the state after one step is (1, up) as the closed form says. -/
theorem arp_updown_amended_check :
    arpDirectionChoice ArpDirection.updown 0 = ArpDirection.updown ∧
    arpIter 1 = arpPhase 1 :=
  ⟨arp_updown_amended.1 0 (by norm_num) (by norm_num), (arp_updown_amended.2 1).1⟩

end ShaderPilot

namespace ShaderPilot

/-- C7. Scheduler lookahead and no past events: for each instrument, the
frame fires an event exactly when the instrument is enabled and the
audio clock is within the 0.1 s lookahead of its next-event time
(`audioNow ≥ nextEventTime - 0.1`), and every fired event receives
`max(audioNow, nextEventTime)`, which is never before either the clock
or the scheduled time. -/
theorem scheduler_lookahead (me ae re : Bool) (audioNow : ℚ)
    (live : LiveAudioState) (mr ir : ℚ) (times : SchedTimes) :
    ((scheduleFrame me ae re audioNow live mr ir times).melody.isSome ↔
      (me = true ∧ audioNow ≥ times.melody - lookahead)) ∧
    (∀ t, (scheduleFrame me ae re audioNow live mr ir times).melody = some t →
      t = max audioNow times.melody ∧ audioNow ≤ t ∧ times.melody ≤ t) ∧
    ((scheduleFrame me ae re audioNow live mr ir times).arp.isSome ↔
      (ae = true ∧ audioNow ≥ times.arp - lookahead)) ∧
    (∀ t, (scheduleFrame me ae re audioNow live mr ir times).arp = some t →
      t = max audioNow times.arp ∧ audioNow ≤ t ∧ times.arp ≤ t) ∧
    ((scheduleFrame me ae re audioNow live mr ir times).rhythm.isSome ↔
      (re = true ∧ audioNow ≥ times.rhythm - lookahead)) ∧
    (∀ t, (scheduleFrame me ae re audioNow live mr ir times).rhythm = some t →
      t = max audioNow times.rhythm ∧ audioNow ≤ t ∧ times.rhythm ≤ t) := by
  refine ⟨?_, ?_, ?_, ?_, ?_, ?_⟩
  · by_cases h : me = true ∧ audioNow ≥ times.melody - lookahead
    · simp [scheduleFrame, h]
    · simp [scheduleFrame, h]
  · intro t ht
    simp only [scheduleFrame] at ht
    split at ht
    · injection ht with ht
      subst ht
      exact ⟨rfl, le_max_left _ _, le_max_right _ _⟩
    · simp at ht
  · by_cases h : ae = true ∧ audioNow ≥ times.arp - lookahead
    · simp [scheduleFrame, h]
    · simp [scheduleFrame, h]
  · intro t ht
    simp only [scheduleFrame] at ht
    split at ht
    · injection ht with ht
      subst ht
      exact ⟨rfl, le_max_left _ _, le_max_right _ _⟩
    · simp at ht
  · by_cases h : re = true ∧ audioNow ≥ times.rhythm - lookahead
    · simp [scheduleFrame, h]
    · simp [scheduleFrame, h]
  · intro t ht
    simp only [scheduleFrame] at ht
    split at ht
    · injection ht with ht
      subst ht
      exact ⟨rfl, le_max_left _ _, le_max_right _ _⟩
    · simp at ht

/-- Witness for C7 modelling the stall scenario: next arp event at
T = 10, clock resumed at 10.2 (stalled 0.2 past T); the fired arp event
gets audio-time 10.2 = max(now, T), not T. -/
theorem scheduler_lookahead_check :
    (51/5 : ℚ) = max (51/5) 10 ∧ (51/5 : ℚ) ≤ 51/5 ∧ (10 : ℚ) ≤ 51/5 :=
  (scheduler_lookahead true true true (51/5) ⟨60, 1, 2, 2/5⟩ 0 0
    ⟨10, 10, 10⟩).2.2.2.1 (51/5) (by
      simp only [scheduleFrame, lookahead]
      rw [if_pos]
      · rw [max_eq_left (by norm_num : (10:ℚ) ≤ 51/5)]
      · exact ⟨trivial, by norm_num⟩)

/-- C10. Scheduler interval safety: the routed sequencer parameters are
clamped into their documented ranges (BPM into [30,300], arp speed into
[0.1,5], octaves into [1,5], density into [0,1]) before the inter-event
intervals are computed, and consequently every rescheduling interval is
strictly positive for every modulation input. -/
theorem scheduler_interval_safety (acc : ModulationTarget → ℚ) (r : ℚ)
    (h0 : 0 ≤ r) (_h1 : r ≤ 1) :
    30 ≤ (clampLive acc).rhythmBpm ∧ (clampLive acc).rhythmBpm ≤ 300 ∧
    1/10 ≤ (clampLive acc).arpSpeed ∧ (clampLive acc).arpSpeed ≤ 5 ∧
    1 ≤ (clampLive acc).arpOctaves ∧ (clampLive acc).arpOctaves ≤ 5 ∧
    0 ≤ (clampLive acc).melodyDensity ∧ (clampLive acc).melodyDensity ≤ 1 ∧
    0 < rhythmInterval (clampLive acc).rhythmBpm ∧
    0 < arpInterval (clampLive acc).rhythmBpm (clampLive acc).arpSpeed ∧
    0 < melodyInterval (clampLive acc).rhythmBpm r := by
  simp only [clampLive, rhythmInterval, arpInterval, melodyInterval]
  have hbpm1 : (30:ℚ) ≤ max 30 (min 300 (acc ModulationTarget.rhythmBpm)) :=
    le_max_left _ _
  have hbpm2 : max (30:ℚ) (min 300 (acc ModulationTarget.rhythmBpm)) ≤ 300 :=
    max_le (by norm_num) (min_le_left _ _)
  have hsp1 : (1/10:ℚ) ≤ max (1/10) (min 5 (acc ModulationTarget.arpSpeed)) :=
    le_max_left _ _
  have hsp2 : max (1/10:ℚ) (min 5 (acc ModulationTarget.arpSpeed)) ≤ 5 :=
    max_le (by norm_num) (min_le_left _ _)
  have hbpmpos : (0:ℚ) < max 30 (min 300 (acc ModulationTarget.rhythmBpm)) := by
    linarith
  refine ⟨hbpm1, hbpm2, hsp1, hsp2, le_max_left _ _,
    max_le (by norm_num) (min_le_left _ _), le_max_left _ _,
    max_le (by norm_num) (min_le_left _ _), ?_, ?_, ?_⟩
  · exact div_pos (by norm_num) hbpmpos
  · exact div_pos (div_pos (by norm_num) hbpmpos) (by linarith)
  · exact mul_pos (div_pos (by norm_num) hbpmpos) (by linarith)

/-- Witness for C10 at a zero accumulator and a mid-range random draw. -/
theorem scheduler_interval_safety_check :
    0 < rhythmInterval (clampLive (fun _ => 0)).rhythmBpm ∧
    0 < arpInterval (clampLive (fun _ => 0)).rhythmBpm (clampLive (fun _ => 0)).arpSpeed ∧
    0 < melodyInterval (clampLive (fun _ => 0)).rhythmBpm (1/2) :=
  ⟨(scheduler_interval_safety (fun _ => 0) (1/2) (by norm_num)
      (by norm_num)).2.2.2.2.2.2.2.2.1,
   (scheduler_interval_safety (fun _ => 0) (1/2) (by norm_num)
      (by norm_num)).2.2.2.2.2.2.2.2.2.1,
   (scheduler_interval_safety (fun _ => 0) (1/2) (by norm_num)
      (by norm_num)).2.2.2.2.2.2.2.2.2.2⟩

/-- Counterexample to C8 as stated: loading a session whose sound config
is present but carries no `modulations` field does NOT yield an empty
modulation list; it falls back to the default sound config's list of six
built-in modulations. -/
theorem sound_modulations_default_not_empty :
    (mergeSoundConfig (some {})).modulations = defaultSoundConfig.modulations ∧
    (mergeSoundConfig (some {})).modulations ≠ [] := by
  constructor
  · rfl
  · decide

/-- C8 (amended). Load-time defaults: an omitted red collision threshold
defaults to 0.002 and an omitted yellow one to 0.02; a sound config with
an absent `modulations` field (or an entirely absent sound config)
yields the DEFAULT modulation list of `defaultSoundConfig` — not an
error, but not the empty list either. -/
theorem load_defaults_amended :
    loadedCollisionThresholdRed Option.none = 1/500 ∧
    loadedCollisionThresholdYellow Option.none = 1/50 ∧
    (mergeSoundConfig Option.none).modulations = defaultSoundConfig.modulations ∧
    (∀ p : SoundConfigPatch, p.modulations = Option.none →
      (mergeSoundConfig (some p)).modulations = defaultSoundConfig.modulations) := by
  refine ⟨rfl, rfl, rfl, ?_⟩
  intro p hp
  simp [mergeSoundConfig, hp]

/-- Witness for C8 (amended) at the all-absent patch. -/
theorem load_defaults_amended_check :
    (mergeSoundConfig (some {})).modulations = defaultSoundConfig.modulations :=
  load_defaults_amended.2.2.2 {} rfl

/-- C9. Session round trip preserves modulations: serializing the
current sound config into the session snapshot and loading it back
through the merge of `applySessionState` reproduces the whole config,
and in particular every modulation tuple exactly. -/
theorem session_roundtrip_modulations (cfg : SoundConfig)
    (_hne : cfg.modulations ≠ []) :
    mergeSoundConfig (some (serializedSoundConfig cfg)) = cfg ∧
    (mergeSoundConfig (some (serializedSoundConfig cfg))).modulations =
      cfg.modulations :=
  ⟨rfl, rfl⟩

/-- Witness for C9 with a concrete three-modulation config. -/
theorem session_roundtrip_modulations_check :
    (mergeSoundConfig (some (serializedSoundConfig
        { defaultSoundConfig with modulations :=
            [⟨"a", true, ModulationSource.speed, ModulationTarget.arpGain, 1/2⟩,
             ⟨"b", false, ModulationSource.pitch, ModulationTarget.reverbMix, -(1/4)⟩,
             ⟨"c", true, ModulationSource.time, ModulationTarget.rhythmBpm, 1⟩] }))).modulations =
      [⟨"a", true, ModulationSource.speed, ModulationTarget.arpGain, 1/2⟩,
       ⟨"b", false, ModulationSource.pitch, ModulationTarget.reverbMix, -(1/4)⟩,
       ⟨"c", true, ModulationSource.time, ModulationTarget.rhythmBpm, 1⟩] :=
  (session_roundtrip_modulations _ (by decide)).2

/-- C5 is a code bug: the heading telemetry divides the JS remainder
`yaw % 2π` (which keeps the dividend's sign) by 2π, so a negative yaw —
reached by turning left from the start — produces a NEGATIVE heading,
contradicting both the spec's "wrapped to [0, 2π) then normalized to
[0,1)" and the source's own type comment `// Compass direction (0.0 to
1.0)`.  At yaw = -1.57 the code computes a heading of about -0.25. -/
theorem heading_negative_for_left_turn :
    headingTelemetry (-(157/100)) < 0 := by
  have htp : (0:ℚ) < twoPiDouble := by norm_num [twoPiDouble]
  have hq : ((-(157/100) : ℚ)) / twoPiDouble < 0 :=
    div_neg_of_neg_of_pos (by norm_num) htp
  have hgt : (-1 : ℚ) < (-(157/100) : ℚ) / twoPiDouble := by
    rw [lt_div_iff₀ htp]
    norm_num [twoPiDouble]
  have hfloor : ⌊-((-(157/100) : ℚ) / twoPiDouble)⌋ = 0 := by
    rw [Int.floor_eq_zero_iff, Set.mem_Ico]
    constructor <;> linarith
  have htr : jsTrunc ((-(157/100) : ℚ) / twoPiDouble) = 0 := by
    unfold jsTrunc
    rw [if_pos hq, hfloor, neg_zero]
  unfold headingTelemetry jsRem
  rw [htr]
  rw [Int.cast_zero, mul_zero, sub_zero]
  exact div_neg_of_neg_of_pos (by norm_num) htp

end ShaderPilot
